import Mathlib

/-!
Shallow embedding of `src/fedex_app.py` (FedEx Rate Checker).

Conventions of the embedding:
* Python floats are modelled as exact rationals (`ℚ`); `round(x, 2)` is
  modelled as round-half-to-even at two decimals, matching Python 3 `round`
  on exact values.
* Calendar dates are modelled as integers counting days from an epoch that
  falls on a Monday, so `d % 7 = 5` is Saturday and `d % 7 = 6` is Sunday.
* JSON values reaching the normalizer are modelled by the inductive `PyVal`
  (null / number / string / object); Python dict `.get` returning `None` on
  a missing key is `pget`, and Python truthiness is `truthy`.
* Network calls are modelled by passing their result in as a parameter
  (`Except` for the rate request); the haversine distance, which the source
  computes with floating-point trigonometry, is passed in as an opaque-to-us
  function parameter `distF`, since every claim about it concerns only the
  bucketing of its result.
-/

/-- Values of the JSON-derived Python data reaching the normalizer:
`None`, numbers, strings and dicts (association lists in insertion order). -/
inductive PyVal where
  | none : PyVal
  | num : ℚ → PyVal
  | str : String → PyVal
  | dict : List (String × PyVal) → PyVal
deriving Repr

/-- Python dict lookup `v.get(k)`: `None` when the key is absent or the
value is not a dict (the source only applies `.get` to dicts). -/
def pget (v : PyVal) (k : String) : PyVal :=
  match v with
  | .dict fields => (fields.lookup k).getD .none
  | _ => .none

/-- Python truthiness of a `PyVal`: `None` is falsy, `0` is falsy, the empty
string is falsy, the empty dict is falsy. -/
def truthy : PyVal → Bool
  | .none => false
  | .num q => q != 0
  | .str s => s != ""
  | .dict fields => !fields.isEmpty

/-- Numeric content of a `PyVal`; `0` on the non-numeric constructors, which
the normalizer never multiplies (Python would raise `TypeError` there; no
claim touches that path). -/
def pyNum : PyVal → ℚ
  | .num q => q
  | _ => 0

/-- String content of a `PyVal`; `""` on the other constructors. -/
def pyStr : PyVal → String
  | .str s => s
  | _ => ""

/-- MARKUP_PERCENT = 0.10 (line 40 of fedex_app.py). -/
def MARKUP_PERCENT : ℚ := 10 / 100

/-- Round a rational to the nearest integer, ties to even — the behaviour of
Python 3 `round` on exact values. -/
def roundHalfEven (y : ℚ) : ℤ :=
  if y - ⌊y⌋ < 1 / 2 then ⌊y⌋
  else if y - ⌊y⌋ > 1 / 2 then ⌊y⌋ + 1
  else if ⌊y⌋ % 2 = 0 then ⌊y⌋ else ⌊y⌋ + 1

/-- Python `round(x, 2)` on exact values. -/
def pyRound2 (x : ℚ) : ℚ := (roundHalfEven (x * 100) : ℚ) / 100

/-- Pricing policy, line 182: `round(amount * (1 + MARKUP_PERCENT), 2)`. -/
def markup (amount : ℚ) : ℚ := pyRound2 (amount * (1 + MARKUP_PERCENT))

/-- Distance bucketing of `estimate_ground_transit_days` (lines 73-82):
first matching upper-bound-inclusive threshold. -/
def bucket (dist : ℚ) : ℕ :=
  if dist ≤ 150 then 1
  else if dist ≤ 450 then 2
  else if dist ≤ 1000 then 3
  else if dist ≤ 2000 then 4
  else 5

/-- Coordinates (lat, lng) of a ZIP, as rationals. -/
def Coord : Type := ℚ × ℚ

/-- ZIP → coordinates reference table (`zip_coords`, indexed by ZIP string). -/
def ZipTable : Type := List (String × Coord)

/-- estimate_ground_transit_days (lines 68-84): look both ZIPs up in the
table; on a missing key (`KeyError`) return 5; otherwise bucket the
haversine distance. The distance function is a parameter because the source
computes it with floating-point trigonometry; every claim concerns the
bucketing and the fallback only. -/
def estimate_ground_transit_days (zt : ZipTable) (distF : Coord → Coord → ℚ)
    (oz dz : String) : ℕ :=
  match zt.lookup oz, zt.lookup dz with
  | some o, some d => bucket (distF o d)
  | _, _ => 5

/-- Saturday or Sunday, with day 0 a Monday. -/
def isWeekend (d : ℤ) : Prop := d % 7 = 5 ∨ d % 7 = 6

instance (d : ℤ) : Decidable (isWeekend d) := by
  unfold isWeekend; infer_instance

/-- Next strictly-later non-weekend day. -/
def nextBusinessDay (d : ℤ) : ℤ :=
  if ¬ isWeekend (d + 1) then d + 1
  else if ¬ isWeekend (d + 2) then d + 2
  else d + 3

/-- First non-weekend day at or after `d` — the first element generated by
`pd.bdate_range(start=d, ...)`. -/
def firstBusinessDayFrom (d : ℤ) : ℤ :=
  if ¬ isWeekend d then d
  else if ¬ isWeekend (d + 1) then d + 1
  else d + 2

/-- add_business_days (lines 138-140):
`pd.bdate_range(start, periods=n+1)` lists the first business day at or
after `start` followed by the next `n` business days; the function returns
the last of them. -/
def add_business_days (start : ℤ) (n : ℕ) : ℤ :=
  nextBusinessDay^[n] (firstBusinessDayFrom start)

/-- fixed_days_by_service (lines 144-151), as the partial map
`dict.get` denotes. -/
def fixed_days_by_service (sT : String) : Option ℕ :=
  if sT = "FIRST_OVERNIGHT" then some 1
  else if sT = "PRIORITY_OVERNIGHT" then some 1
  else if sT = "STANDARD_OVERNIGHT" then some 1
  else if sT = "FEDEX_2_DAY_AM" then some 2
  else if sT = "FEDEX_2_DAY" then some 2
  else if sT = "FEDEX_EXPRESS_SAVER" then some 3
  else none

/-- Estimated delivery of a record: a concrete date (rendered as an ISO
string by the source) or the sentinel string "Estimate unavailable"; the
`commit` form exists only for the spec-side model of a carrier commit date,
which the source never produces. -/
inductive Delivery where
  | onDate : ℤ → Delivery
  | commit : String → Delivery
  | unavailable : Delivery
deriving Repr, DecidableEq

/-- One entry of `response["output"]["rateReplyDetails"]`. -/
structure RateReplyItem where
  serviceType : Option String
  serviceName : Option String
  ratedShipmentDetails : List PyVal

/-- `item.get("serviceType", "UNKNOWN")` (line 155). -/
def itemServiceType (it : RateReplyItem) : String :=
  it.serviceType.getD "UNKNOWN"

/-- `item.get("serviceName") or service_type` (line 156): the falsy empty
string also falls back. -/
def itemServiceName (it : RateReplyItem) : String :=
  match it.serviceName with
  | some s => if s = "" then itemServiceType it else s
  | Option.none => itemServiceType it

/-- Line 163:
`add_business_days(date.today(), days) if days else "Estimate unavailable"`
— note the truthiness test, under which both `None` and `0` give the
sentinel. -/
def dayCountToDelivery (today : ℤ) : Option ℕ → Delivery
  | some d => if d = 0 then .unavailable else .onDate (add_business_days today d)
  | Option.none => .unavailable

/-- Lines 158-163: transit days for the item (ground heuristic for
FEDEX_GROUND, else the fixed table), then the truthiness-guarded business
day computation of `dayCountToDelivery`. -/
def itemDelivery (zt : ZipTable) (distF : Coord → Coord → ℚ)
    (oz dz : String) (today : ℤ) (it : RateReplyItem) : Delivery :=
  dayCountToDelivery today
    (if itemServiceType it = "FEDEX_GROUND"
     then some (estimate_ground_transit_days zt distF oz dz)
     else fixed_days_by_service (itemServiceType it))

/-- The fallback lookup of lines 168-169:
`(detail.get("shipmentRateDetail") or {}).get("totalNetFedExCharge")`. -/
def nestedNetCharge (detail : PyVal) : PyVal :=
  let srd := pget detail "shipmentRateDetail"
  pget (if truthy srd then srd else .dict []) "totalNetFedExCharge"

/-- Charge resolution of lines 166-169: take the top-level
"totalNetFedExCharge" when truthy, else the nested fallback. -/
def resolveCharge (detail : PyVal) : PyVal :=
  let charge := pget detail "totalNetFedExCharge"
  if truthy charge then charge else nestedNetCharge detail

/-- Shape dispatch of lines 171-179: a dict charge yields its "amount" and
"currency" entries, a bare number yields itself with currency "USD",
anything else yields `(None, None)`. -/
def chargeFields (charge : PyVal) : PyVal × PyVal :=
  match charge with
  | .dict fields => (pget (.dict fields) "amount", pget (.dict fields) "currency")
  | .num q => (.num q, .str "USD")
  | _ => (.none, .none)

/-- One normalized rate record (the dict built at lines 183-188), carrying
the numeric amounts beside the service name and currency. -/
structure RateRecord where
  service : String
  amount : ℚ
  currency : String
  markedUp : ℚ
  estimatedDelivery : Delivery
deriving Repr, DecidableEq

/-- Lines 165-188 for one sub-entry of `ratedShipmentDetails`: resolve the
charge, dispatch on its shape, and emit a record only when both the amount
and the currency are truthy (`if amount and currency:`). -/
def extractDetailRecord (sn : String) (del : Delivery) (detail : PyVal) :
    Option RateRecord :=
  if truthy (chargeFields (resolveCharge detail)).1 &&
      truthy (chargeFields (resolveCharge detail)).2 then
    some { service := sn,
           amount := pyNum (chargeFields (resolveCharge detail)).1,
           currency := pyStr (chargeFields (resolveCharge detail)).2,
           markedUp := markup (pyNum (chargeFields (resolveCharge detail)).1),
           estimatedDelivery := del }
  else Option.none

/-- extract_selected_rates (lines 142-189): one pass over
`rateReplyDetails`, emitting the surviving sub-entry records of each item
in order. `today` stands for `date.today()`. -/
def extract_selected_rates (zt : ZipTable) (distF : Coord → Coord → ℚ)
    (resp : List RateReplyItem) (oz dz : String) (today : ℤ) : List RateRecord :=
  resp.flatMap (fun it =>
    it.ratedShipmentDetails.filterMap
      (extractDetailRecord (itemServiceName it) (itemDelivery zt distF oz dz today it)))

/-- Column names of the records the normalizer emits (the dict keys at
lines 183-188), in order. -/
def recordColumns : List String :=
  ["Service", "List Rate", "DS Rate", "Estimated Delivery"]

/-- Column name the display block sorts by (line 229). -/
def sortColumn : String := "Marked Up Rate"

/-- Stable ascending insertion by marked-up amount. -/
def insertAsc (r : RateRecord) : List RateRecord → List RateRecord
  | [] => [r]
  | x :: xs => if x.markedUp ≤ r.markedUp then x :: insertAsc r xs else r :: x :: xs

/-- Stable ascending sort by marked-up amount. -/
def sortByNumeric (rs : List RateRecord) : List RateRecord :=
  rs.foldr insertAsc []

/-- Lines 228-230 of the display block: pandas raises `KeyError` when the
sort column is absent from the data frame; the sorted frame is produced
only when the column exists. The `ok` branch is unreachable on the emitted
records because `sortColumn` is not among `recordColumns`. -/
def sortStep (records : List RateRecord) : Except String (List RateRecord) :=
  if sortColumn ∈ recordColumns then .ok (sortByNumeric records)
  else .error ("KeyError: " ++ sortColumn)

/-- get_access_token (lines 43-57): one POST to the OAuth endpoint, whose
outcome is the parameter `oauth` — `Except.error` stands for the caught
`RequestException` (transport/DNS failure, or a non-2xx status raised by
`raise_for_status`), in which case the handler shows the OAuth error and
returns `None`; `Except.ok body` stands for a parsed 2xx JSON body, from
which `body.get("access_token")` is returned — `None` when the field is
absent or null. A non-string token field is not produced by the OAuth
endpoint and is modelled as absent. -/
def get_access_token (oauth : Except String PyVal) : Option String :=
  match oauth with
  | .error _ => Option.none
  | .ok body =>
      match pget body "access_token" with
      | .str s => some s
      | _ => Option.none

/-- Truthiness of the `token` value (`if token:` at lines 87 and 220):
absent or empty-string tokens are falsy. -/
def tokenTruthy : Option String → Bool
  | Option.none => false
  | some s => s != ""

/-- Parsed body of a successful rate response: the `rateReplyDetails` items
and the `alerts` list (code/message pairs, either possibly absent). -/
structure RateResponse where
  items : List RateReplyItem
  alerts : List (Option String × Option String)

/-- get_list_rates (lines 86-136), reduced to its control skeleton: when
the token is falsy it returns the error dict without touching the network;
otherwise it issues the one request, whose outcome is the parameter `api`.
The boolean records whether the network request was issued. -/
def get_list_rates_m (token : Option String) (api : Except String RateResponse) :
    Bool × Except String RateResponse :=
  if tokenTruthy token then (true, api)
  else (false, .error "Unable to get access token.")

/-- Observable steps of the submitted block, in order. -/
inductive FlowEvent where
  | rateRequest : FlowEvent
  | errorMsg : String → FlowEvent
  | successBanner : FlowEvent
  | table : List RateRecord → FlowEvent
  | warnNoRates : FlowEvent
  | infoAlert : Option String → Option String → FlowEvent
  | rawResponse : FlowEvent
deriving DecidableEq

/-- Lines 219-250 of the submitted block, from `token = get_access_token()`
on: a falsy token short-circuits to the auth-failure message; otherwise the
rate request is issued, an error response is surfaced, an empty record list
warns, and a non-empty one shows the success banner and then hits the
`KeyError` of `sortStep`, caught by the outer product-not-found handler
(line 252), which aborts the alert and raw-response rendering. -/
def rateCheckFlow (zt : ZipTable) (distF : Coord → Coord → ℚ)
    (oz dz : String) (today : ℤ) (pn : String)
    (token : Option String) (api : Except String RateResponse) : List FlowEvent :=
  if tokenTruthy token then
    let res := get_list_rates_m token api
    (if res.1 then [FlowEvent.rateRequest] else []) ++
      match res.2 with
      | .error m => [.errorMsg m]
      | .ok r =>
          let rates := extract_selected_rates zt distF r.items oz dz today
          if rates.isEmpty then
            .warnNoRates ::
              (r.alerts.map (fun a => FlowEvent.infoAlert a.1 a.2) ++ [.rawResponse])
          else
            FlowEvent.successBanner ::
              match sortStep rates with
              | .ok sorted =>
                  .table sorted ::
                    (r.alerts.map (fun a => FlowEvent.infoAlert a.1 a.2) ++ [.rawResponse])
              | .error _ =>
                  [.errorMsg ("Product number " ++ pn ++ " not found in product catalog.")]
  else [.errorMsg "Failed to get FedEx access token."]

/-- Modelled from the spec: the four-step delivery-date priority of spec
section 4.6 step 2, including step (a) — consult the carrier transit-time
mapping first — which has no counterpart anywhere in `src/fedex_app.py`
(this version of the app issues no transit-time request). Steps (b)-(d)
follow the spec wording, which coincides with the source for those steps. -/
def specItemDelivery (transitMap : List (String × String))
    (zt : ZipTable) (distF : Coord → Coord → ℚ)
    (oz dz : String) (today : ℤ) (it : RateReplyItem) : Delivery :=
  let sT := itemServiceType it
  match transitMap.lookup sT with
  | some commitDate => .commit commitDate
  | Option.none =>
      if sT = "FEDEX_GROUND" then
        .onDate (add_business_days today (estimate_ground_transit_days zt distF oz dz))
      else
        match fixed_days_by_service sT with
        | some d => .onDate (add_business_days today d)
        | Option.none => .unavailable

/-- Follows the wording of the spec for charge extraction (section 4.6 step
3): prefer the top-level "totalNetFedExCharge" field when it is PRESENT,
and only otherwise fall back to the nested rate-detail object. This is the
presence-based reading the claim states, to be compared with the
truthiness-based `resolveCharge` of the source. -/
def specResolveCharge (detail : PyVal) : PyVal :=
  match detail with
  | .dict fields =>
      match fields.lookup "totalNetFedExCharge" with
      | some v => v
      | Option.none => nestedNetCharge detail
  | _ => .none
/-! ## Helper lemmas -/

/-- Every bucket value is at least 1. -/
theorem bucket_pos (d : ℚ) : 1 ≤ bucket d := by
  unfold bucket; split_ifs <;> decide

/-- Every bucket value is at most 5. -/
theorem bucket_le_five (d : ℚ) : bucket d ≤ 5 := by
  unfold bucket; split_ifs <;> decide

/-- The ground estimator always returns at least 1 day. -/
theorem estimate_ground_transit_days_pos (zt : ZipTable) (distF : Coord → Coord → ℚ)
    (oz dz : String) : 1 ≤ estimate_ground_transit_days zt distF oz dz := by
  unfold estimate_ground_transit_days
  rcases zt.lookup oz with _ | o <;> rcases zt.lookup dz with _ | d <;>
    simp [bucket_pos]

/-- The fixed-day table only holds the values 1, 2 and 3. -/
theorem fixed_days_by_service_pos (sT : String) (d : ℕ)
    (h : fixed_days_by_service sT = some d) : 1 ≤ d := by
  unfold fixed_days_by_service at h
  split_ifs at h <;> simp_all <;> omega

/-- The next business day is never a weekend day. -/
theorem nextBusinessDay_not_weekend (d : ℤ) : ¬ isWeekend (nextBusinessDay d) := by
  unfold nextBusinessDay
  split_ifs with h1 h2 <;> simp only [isWeekend] at * <;> omega

/-- The first business day at or after a date is never a weekend day. -/
theorem firstBusinessDayFrom_not_weekend (d : ℤ) :
    ¬ isWeekend (firstBusinessDayFrom d) := by
  unfold firstBusinessDayFrom
  split_ifs with h1 h2 <;> simp only [isWeekend] at * <;> omega

/-- The next business day advances by one to three calendar days. -/
theorem nextBusinessDay_bounds (d : ℤ) :
    d + 1 ≤ nextBusinessDay d ∧ nextBusinessDay d ≤ d + 3 := by
  unfold nextBusinessDay; split_ifs <;> omega

/-- The first business day does not precede the start date. -/
theorem le_firstBusinessDayFrom (d : ℤ) : d ≤ firstBusinessDayFrom d := by
  unfold firstBusinessDayFrom; split_ifs <;> omega

/-- Iterating the next-business-day step keeps the date off the weekend. -/
theorem iterate_nextBusinessDay_not_weekend (n : ℕ) (x : ℤ) (hx : ¬ isWeekend x) :
    ¬ isWeekend (nextBusinessDay^[n] x) := by
  induction n with
  | zero => simpa using hx
  | succ n ih =>
      rw [Function.iterate_succ_apply']
      exact nextBusinessDay_not_weekend _

/-- Each next-business-day iterate advances at least one day per step. -/
theorem add_le_iterate_nextBusinessDay (n : ℕ) (x : ℤ) :
    x + n ≤ nextBusinessDay^[n] x := by
  induction n with
  | zero => simp
  | succ n ih =>
      rw [Function.iterate_succ_apply']
      have h := (nextBusinessDay_bounds (nextBusinessDay^[n] x)).1
      push_cast
      push_cast at ih
      omega

/-- Record membership in the normalizer output, unfolded to the item and
sub-entry it came from. -/
theorem mem_extract_selected_rates {zt : ZipTable} {distF : Coord → Coord → ℚ}
    {resp : List RateReplyItem} {oz dz : String} {today : ℤ} {r : RateRecord} :
    r ∈ extract_selected_rates zt distF resp oz dz today ↔
      ∃ it ∈ resp, ∃ detail ∈ it.ratedShipmentDetails,
        extractDetailRecord (itemServiceName it)
          (itemDelivery zt distF oz dz today it) detail = some r := by
  simp [extract_selected_rates, List.mem_flatMap, List.mem_filterMap]

/-- Field content of an emitted record, extracted from the emission guard. -/
theorem extractDetailRecord_eq_some {sn : String} {del : Delivery} {detail : PyVal}
    {r : RateRecord} (h : extractDetailRecord sn del detail = some r) :
    r.service = sn ∧ r.markedUp = markup r.amount ∧
      r.currency = pyStr (chargeFields (resolveCharge detail)).2 ∧
      r.estimatedDelivery = del := by
  unfold extractDetailRecord at h
  split at h
  · rw [Option.some.injEq] at h
    subst h
    exact ⟨rfl, rfl, rfl, rfl⟩
  · exact absurd h (by simp)
/-! ## Claim C1 -/

/-- C1, as stated, is false of the source: the claim asserts the four-step
priority with the carrier transit-time mapping consulted first, but
`extract_selected_rates` consults no transit-time mapping at all. At the
concrete item with serviceType "FEDEX_2_DAY" and a transit mapping carrying
a commit date for it, the spec-side resolution returns the commit date
while the source returns the fixed-table two-business-day date. -/
theorem c1_counterexample :
    itemDelivery [] (fun _ _ => 0) "53202" "90210" 0
        (RateReplyItem.mk (some "FEDEX_2_DAY") Option.none []) ≠
      specItemDelivery [("FEDEX_2_DAY", "2099-01-01")] [] (fun _ _ => 0)
        "53202" "90210" 0
        (RateReplyItem.mk (some "FEDEX_2_DAY") Option.none []) := by
  decide

/-- C1 amended: the normalizer consults no transit-time mapping; delivery
is resolved by (b) FEDEX_GROUND through the geo estimator fed to the
business-day calculator, (c) the fixed table for the six known expedited
codes (overnight classes 1 day, two-day classes 2 days, express saver
3 days), and (d) the "Estimate unavailable" sentinel otherwise; and every
emitted record carries the delivery date so resolved for its item. -/
theorem c1_delivery_resolution (zt : ZipTable) (distF : Coord → Coord → ℚ)
    (resp : List RateReplyItem) (oz dz : String) (today : ℤ) (it : RateReplyItem) :
    (itemServiceType it = "FEDEX_GROUND" →
        itemDelivery zt distF oz dz today it =
          .onDate (add_business_days today (estimate_ground_transit_days zt distF oz dz)))
    ∧ (∀ d : ℕ, itemServiceType it ≠ "FEDEX_GROUND" →
        fixed_days_by_service (itemServiceType it) = some d →
        itemDelivery zt distF oz dz today it = .onDate (add_business_days today d))
    ∧ (itemServiceType it ≠ "FEDEX_GROUND" →
        fixed_days_by_service (itemServiceType it) = Option.none →
        itemDelivery zt distF oz dz today it = .unavailable)
    ∧ fixed_days_by_service "FIRST_OVERNIGHT" = some 1
    ∧ fixed_days_by_service "PRIORITY_OVERNIGHT" = some 1
    ∧ fixed_days_by_service "STANDARD_OVERNIGHT" = some 1
    ∧ fixed_days_by_service "FEDEX_2_DAY_AM" = some 2
    ∧ fixed_days_by_service "FEDEX_2_DAY" = some 2
    ∧ fixed_days_by_service "FEDEX_EXPRESS_SAVER" = some 3
    ∧ (∀ r ∈ extract_selected_rates zt distF resp oz dz today,
        ∃ it2 ∈ resp, r.estimatedDelivery = itemDelivery zt distF oz dz today it2) := by
  refine ⟨?_, ?_, ?_, rfl, rfl, rfl, rfl, rfl, rfl, ?_⟩
  · intro h
    have hpos := estimate_ground_transit_days_pos zt distF oz dz
    unfold itemDelivery
    rw [if_pos h]
    simp only [dayCountToDelivery]
    rw [if_neg (by omega)]
  · intro d hne hsome
    have hpos := fixed_days_by_service_pos _ _ hsome
    unfold itemDelivery
    rw [if_neg hne, hsome]
    simp only [dayCountToDelivery]
    rw [if_neg (by omega)]
  · intro hne hnone
    unfold itemDelivery
    rw [if_neg hne, hnone]
    rfl
  · intro r hr
    obtain ⟨it2, hit2, detail, _, hd⟩ := mem_extract_selected_rates.mp hr
    exact ⟨it2, hit2, (extractDetailRecord_eq_some hd).2.2.2⟩

/-- Witness for `c1_delivery_resolution` at a concrete ground item. -/
theorem c1_delivery_resolution_witness :
    itemServiceType (RateReplyItem.mk (some "FEDEX_GROUND") Option.none []) =
        "FEDEX_GROUND"
    ∧ itemDelivery [] (fun _ _ => 0) "53202" "90210" 0
        (RateReplyItem.mk (some "FEDEX_GROUND") Option.none []) =
      .onDate (add_business_days 0
        (estimate_ground_transit_days [] (fun _ _ => 0) "53202" "90210")) :=
  ⟨rfl, (c1_delivery_resolution [] (fun _ _ => 0) [] "53202" "90210" 0 _).1 rfl⟩
/-! ## Claim C2 -/

/-- C2 names a code bug: the display block sorts by a data-frame column
"Marked Up Rate" (line 229) that the emitted records never carry — their
keys are Service / List Rate / DS Rate / Estimated Delivery (lines
183-188) — so for every record list pandas raises `KeyError` before any
table is shown, and no sorted output is ever displayed. -/
theorem c2_sort_column_missing :
    sortColumn ∉ recordColumns
    ∧ (∀ rs : List RateRecord, sortStep rs = .error "KeyError: Marked Up Rate") := by
  refine ⟨by decide, fun rs => ?_⟩
  unfold sortStep
  rw [if_neg (by decide)]
  rfl

/-! ## Claim C3 -/

/-- C3: a sub-entry whose amount or currency resolves to `None` is skipped
without error, and the concrete two-sub-entry response — one valid
structured charge, one with the currency missing — normalizes to exactly
the one valid record. -/
theorem c3_skip_unresolved (sn : String) (del : Delivery) (detail : PyVal) :
    ((chargeFields (resolveCharge detail)).1 = PyVal.none ∨
        (chargeFields (resolveCharge detail)).2 = PyVal.none →
      extractDetailRecord sn del detail = Option.none)
    ∧ extract_selected_rates [] (fun _ _ => 0)
        [RateReplyItem.mk (some "STANDARD_OVERNIGHT") (some "FedEx Standard Overnight")
          [PyVal.dict [("totalNetFedExCharge",
              PyVal.dict [("amount", PyVal.num 45), ("currency", PyVal.str "USD")])],
           PyVal.dict [("totalNetFedExCharge",
              PyVal.dict [("amount", PyVal.num 50)])]]]
        "53202" "90210" 0 =
      [RateRecord.mk "FedEx Standard Overnight" 45 "USD" (99 / 2) (.onDate 1)] := by
  constructor
  · intro h
    unfold extractDetailRecord
    rcases h with h | h <;> rw [h] <;> simp [truthy]
  · simp [extract_selected_rates, extractDetailRecord, itemServiceName, itemServiceType,
      itemDelivery, dayCountToDelivery, fixed_days_by_service, add_business_days,
      firstBusinessDayFrom, nextBusinessDay, isWeekend, resolveCharge, nestedNetCharge,
      chargeFields, pget, truthy, pyNum, pyStr, markup, pyRound2, roundHalfEven,
      MARKUP_PERCENT, List.lookup]
    norm_num

/-- Witness for `c3_skip_unresolved` at the sub-entry with the missing
currency. -/
theorem c3_skip_unresolved_witness :
    (chargeFields (resolveCharge (PyVal.dict [("totalNetFedExCharge",
        PyVal.dict [("amount", PyVal.num 50)])]))).2 = PyVal.none
    ∧ extractDetailRecord "FedEx Standard Overnight" (.onDate 1)
        (PyVal.dict [("totalNetFedExCharge",
          PyVal.dict [("amount", PyVal.num 50)])]) = Option.none :=
  ⟨rfl, (c3_skip_unresolved "FedEx Standard Overnight" (.onDate 1) _).1 (Or.inr rfl)⟩

/-! ## Claim C4 -/

/-- C4: every emitted record carries
markedUpPrice = round(listPrice * (1 + MARKUP_PERCENT), 2) with the
process-wide constant 0.10, the currency of the resolved charge is passed
through unchanged, and markup(100.00) = 110.00, markup(99.99) = 109.99. -/
theorem c4_markup_invariant :
    (∀ (zt : ZipTable) (distF : Coord → Coord → ℚ) (resp : List RateReplyItem)
        (oz dz : String) (today : ℤ) (r : RateRecord),
      r ∈ extract_selected_rates zt distF resp oz dz today →
        r.markedUp = pyRound2 (r.amount * (1 + MARKUP_PERCENT)))
    ∧ (∀ (sn : String) (del : Delivery) (detail : PyVal) (r : RateRecord),
        extractDetailRecord sn del detail = some r →
          r.currency = pyStr (chargeFields (resolveCharge detail)).2)
    ∧ MARKUP_PERCENT = 10 / 100
    ∧ markup 100 = 110
    ∧ markup (9999 / 100) = 10999 / 100 := by
  refine ⟨?_, ?_, rfl, ?_, ?_⟩
  · intro zt distF resp oz dz today r hr
    obtain ⟨it, _, detail, _, hd⟩ := mem_extract_selected_rates.mp hr
    exact (extractDetailRecord_eq_some hd).2.1
  · intro sn del detail r h
    exact (extractDetailRecord_eq_some h).2.2.1
  · norm_num [markup, pyRound2, roundHalfEven, MARKUP_PERCENT]
  · norm_num [markup, pyRound2, roundHalfEven, MARKUP_PERCENT]

/-- Witness for `c4_markup_invariant` on a concrete emitted record. -/
theorem c4_markup_invariant_witness :
    (RateRecord.mk "FedEx Ground" 100 "USD" 110 .unavailable) ∈
        extract_selected_rates [] (fun _ _ => 0)
          [RateReplyItem.mk Option.none (some "FedEx Ground")
            [PyVal.dict [("totalNetFedExCharge", PyVal.num 100)]]]
          "53202" "90210" 0
    ∧ (110 : ℚ) = pyRound2 (100 * (1 + MARKUP_PERCENT)) := by
  have he : extract_selected_rates [] (fun _ _ => 0)
      [RateReplyItem.mk Option.none (some "FedEx Ground")
        [PyVal.dict [("totalNetFedExCharge", PyVal.num 100)]]]
      "53202" "90210" 0 =
      [RateRecord.mk "FedEx Ground" 100 "USD" 110 .unavailable] := by
    simp [extract_selected_rates, extractDetailRecord, itemServiceName, itemServiceType,
      itemDelivery, dayCountToDelivery, fixed_days_by_service, add_business_days,
      firstBusinessDayFrom, nextBusinessDay, isWeekend, resolveCharge, nestedNetCharge,
      chargeFields, pget, truthy, pyNum, pyStr, markup, pyRound2, roundHalfEven,
      MARKUP_PERCENT, List.lookup]
    norm_num
  have hm : (RateRecord.mk "FedEx Ground" 100 "USD" 110 .unavailable) ∈
      extract_selected_rates [] (fun _ _ => 0)
        [RateReplyItem.mk Option.none (some "FedEx Ground")
          [PyVal.dict [("totalNetFedExCharge", PyVal.num 100)]]]
        "53202" "90210" 0 := by
    rw [he]; exact List.mem_singleton_self _
  exact ⟨hm, c4_markup_invariant.1 [] (fun _ _ => 0)
    [RateReplyItem.mk Option.none (some "FedEx Ground")
      [PyVal.dict [("totalNetFedExCharge", PyVal.num 100)]]]
    "53202" "90210" 0
    (RateRecord.mk "FedEx Ground" 100 "USD" 110 .unavailable) hm⟩

/-! ## Claim C5 -/

/-- C5: the ground-transit bucketing is the upper-bound-inclusive chain
(first match of d ≤ 150 → 1, d ≤ 450 → 2, d ≤ 1000 → 3, d ≤ 2000 → 4,
else 5), the boundaries land in the lower bucket
(bucket 150 = 1, bucket 150.0001 = 2, bucket 2000 = 4,
bucket 2000.0001 = 5), and bucket is monotone non-decreasing. -/
theorem c5_bucket_thresholds (d1 d2 : ℚ) (h : d1 ≤ d2) :
    bucket d1 ≤ bucket d2
    ∧ bucket 150 = 1
    ∧ bucket (1500001 / 10000) = 2
    ∧ bucket 2000 = 4
    ∧ bucket (20000001 / 10000) = 5
    ∧ (d1 ≤ 150 → bucket d1 = 1)
    ∧ (¬ d1 ≤ 150 → d1 ≤ 450 → bucket d1 = 2)
    ∧ (¬ d1 ≤ 450 → d1 ≤ 1000 → bucket d1 = 3)
    ∧ (¬ d1 ≤ 1000 → d1 ≤ 2000 → bucket d1 = 4)
    ∧ (¬ d1 ≤ 2000 → bucket d1 = 5) := by
  refine ⟨?_, by norm_num [bucket], by norm_num [bucket], by norm_num [bucket],
    by norm_num [bucket], ?_, ?_, ?_, ?_, ?_⟩
  · unfold bucket
    split_ifs <;> first | decide | (exfalso; linarith)
  · intro h1
    unfold bucket
    rw [if_pos h1]
  · intro h1 h2
    unfold bucket
    rw [if_neg h1, if_pos h2]
  · intro h1 h2
    unfold bucket
    rw [if_neg (by linarith), if_neg h1, if_pos h2]
  · intro h1 h2
    unfold bucket
    rw [if_neg (by linarith), if_neg (by linarith), if_neg h1, if_pos h2]
  · intro h1
    unfold bucket
    rw [if_neg (by linarith), if_neg (by linarith), if_neg (by linarith), if_neg h1]

/-- Witness for `c5_bucket_thresholds` at a concrete distance pair. -/
theorem c5_bucket_thresholds_witness :
    (100 : ℚ) ≤ 500 ∧ bucket 100 ≤ bucket 500 :=
  ⟨by norm_num, (c5_bucket_thresholds 100 500 (by norm_num)).1⟩
/-! ## Claim C6 -/

/-- C6, as stated, is false of the source: extraction does not prefer the
top-level "totalNetFedExCharge" whenever it is present — the guard
`if not charge:` (line 167) is a truthiness test, so a present top-level
bare value 0 falls back to the nested rate-detail object. At the concrete
sub-entry with top-level charge 0 and a nested structured charge, the
claimed presence-based extraction yields the top-level 0 while the source
yields the nested object. -/
theorem c6_counterexample :
    resolveCharge (PyVal.dict [("totalNetFedExCharge", PyVal.num 0),
        ("shipmentRateDetail", PyVal.dict [("totalNetFedExCharge",
          PyVal.dict [("amount", PyVal.num 5), ("currency", PyVal.str "EUR")])])]) ≠
      specResolveCharge (PyVal.dict [("totalNetFedExCharge", PyVal.num 0),
        ("shipmentRateDetail", PyVal.dict [("totalNetFedExCharge",
          PyVal.dict [("amount", PyVal.num 5), ("currency", PyVal.str "EUR")])])]) := by
  have h1 : resolveCharge (PyVal.dict [("totalNetFedExCharge", PyVal.num 0),
      ("shipmentRateDetail", PyVal.dict [("totalNetFedExCharge",
        PyVal.dict [("amount", PyVal.num 5), ("currency", PyVal.str "EUR")])])]) =
      PyVal.dict [("amount", PyVal.num 5), ("currency", PyVal.str "EUR")] := rfl
  have h2 : specResolveCharge (PyVal.dict [("totalNetFedExCharge", PyVal.num 0),
      ("shipmentRateDetail", PyVal.dict [("totalNetFedExCharge",
        PyVal.dict [("amount", PyVal.num 5), ("currency", PyVal.str "EUR")])])]) =
      PyVal.num 0 := rfl
  rw [h1, h2]
  intro h
  exact PyVal.noConfusion h

/-- C6 amended: net-charge extraction prefers the top-level
"totalNetFedExCharge" only when that value is truthy; a falsy top-level
value (absent, null, zero, or an empty object) triggers the fallback lookup
in the nested rate-detail object; the chosen charge then yields its amount
and currency fields when structured, and the bare amount with currency
"USD" when numeric. -/
theorem c6_charge_extraction (detail : PyVal) :
    (truthy (pget detail "totalNetFedExCharge") = true →
        resolveCharge detail = pget detail "totalNetFedExCharge")
    ∧ (truthy (pget detail "totalNetFedExCharge") = false →
        resolveCharge detail = nestedNetCharge detail)
    ∧ (∀ fields : List (String × PyVal),
        chargeFields (.dict fields) =
          (pget (.dict fields) "amount", pget (.dict fields) "currency"))
    ∧ (∀ q : ℚ, chargeFields (.num q) = (.num q, .str "USD")) := by
  refine ⟨?_, ?_, fun _ => rfl, fun _ => rfl⟩
  · intro h
    simp [resolveCharge, h]
  · intro h
    simp [resolveCharge, h]

/-- Witness for `c6_charge_extraction` at the zero top-level charge. -/
theorem c6_charge_extraction_witness :
    truthy (pget (PyVal.dict [("totalNetFedExCharge", PyVal.num 0)])
        "totalNetFedExCharge") = false
    ∧ resolveCharge (PyVal.dict [("totalNetFedExCharge", PyVal.num 0)]) =
        nestedNetCharge (PyVal.dict [("totalNetFedExCharge", PyVal.num 0)]) :=
  ⟨rfl, (c6_charge_extraction (PyVal.dict [("totalNetFedExCharge", PyVal.num 0)])).2.1 rfl⟩

/-! ## Claim C7 -/

/-- C7: the business-day calculator never lands on a Saturday or Sunday,
advances strictly past the start date (the start date is not counted among
the n business days), equals n applications of the next-business-day step
when the start is a weekday, and each step advances by one to three
calendar days; the whole computation is pure date arithmetic. -/
theorem c7_business_days (start : ℤ) (n : ℕ) (h : 0 < n) :
    ¬ isWeekend (add_business_days start n)
    ∧ start < add_business_days start n
    ∧ (¬ isWeekend start → add_business_days start n = nextBusinessDay^[n] start)
    ∧ (∀ d : ℤ, d + 1 ≤ nextBusinessDay d ∧ nextBusinessDay d ≤ d + 3) := by
  refine ⟨?_, ?_, ?_, nextBusinessDay_bounds⟩
  · exact iterate_nextBusinessDay_not_weekend n _ (firstBusinessDayFrom_not_weekend start)
  · have h1 := le_firstBusinessDayFrom start
    have h2 := add_le_iterate_nextBusinessDay n (firstBusinessDayFrom start)
    unfold add_business_days
    omega
  · intro hw
    unfold add_business_days firstBusinessDayFrom
    rw [if_pos hw]

/-- Witness for `c7_business_days`: two business days from the Monday
epoch. -/
theorem c7_business_days_witness :
    0 < 2 ∧ ¬ isWeekend (add_business_days 0 2) :=
  ⟨by decide, (c7_business_days 0 2 (by decide)).1⟩

/-! ## Claim C8 -/

/-- C8: when either ZIP is absent from the coordinate table the ground
estimator returns the maximum bucket, 5 days, instead of raising. -/
theorem c8_missing_zip_fallback (zt : ZipTable) (distF : Coord → Coord → ℚ)
    (oz dz : String)
    (h : zt.lookup oz = Option.none ∨ zt.lookup dz = Option.none) :
    estimate_ground_transit_days zt distF oz dz = 5 := by
  unfold estimate_ground_transit_days
  rcases h with h | h
  · rw [h]
  · rcases ho : zt.lookup oz with _ | o <;> rw [h]

/-- Witness for `c8_missing_zip_fallback` on the empty table. -/
theorem c8_missing_zip_fallback_witness :
    ([] : ZipTable).lookup "00000" = Option.none
    ∧ estimate_ground_transit_days [] (fun _ _ => 0) "00000" "90210" = 5 :=
  ⟨rfl, c8_missing_zip_fallback [] (fun _ _ => 0) "00000" "90210" (Or.inl rfl)⟩

/-! ## Claim C9 -/

/-- C9: whenever authentication fails — a transport error or non-2xx
status (the caught `RequestException`), or an absent/null token field in a
2xx body — `get_access_token` returns an absent token rather than raising
(the model is a total function); an absent token is falsy; a falsy token
makes the flow emit exactly the user-visible auth-failure message with no
rate request issued (both the submitted-block guard and the guard inside
get_list_rates block it); conversely a rate request only ever happens under
a truthy token; and in particular a failed authentication leads the flow to
the auth-failure message. -/
theorem c9_auth_gate (zt : ZipTable) (distF : Coord → Coord → ℚ) (oz dz : String)
    (today : ℤ) (pn : String) (token : Option String)
    (oauth : Except String PyVal) (api : Except String RateResponse) :
    ((∃ e, oauth = .error e) ∨
        (∃ body, oauth = .ok body ∧ pget body "access_token" = PyVal.none) →
      get_access_token oauth = Option.none)
    ∧ tokenTruthy Option.none = false
    ∧ (tokenTruthy token = false →
        rateCheckFlow zt distF oz dz today pn token api =
          [.errorMsg "Failed to get FedEx access token."]
        ∧ FlowEvent.rateRequest ∉ rateCheckFlow zt distF oz dz today pn token api)
    ∧ (FlowEvent.rateRequest ∈ rateCheckFlow zt distF oz dz today pn token api →
        tokenTruthy token = true)
    ∧ (tokenTruthy token = false →
        get_list_rates_m token api = (false, .error "Unable to get access token."))
    ∧ (get_access_token oauth = Option.none →
        rateCheckFlow zt distF oz dz today pn (get_access_token oauth) api =
          [.errorMsg "Failed to get FedEx access token."]) := by
  refine ⟨?_, rfl, fun hf => ⟨?_, ?_⟩, ?_, fun hf => ?_, fun hn => ?_⟩
  · rintro (⟨e, rfl⟩ | ⟨body, rfl, hf⟩)
    · rfl
    · simp only [get_access_token]
      rw [hf]
  · simp [rateCheckFlow, hf]
  · simp [rateCheckFlow, hf]
  · intro hm
    cases h2 : tokenTruthy token
    · rw [show rateCheckFlow zt distF oz dz today pn token api =
          [FlowEvent.errorMsg "Failed to get FedEx access token."] from by
            simp [rateCheckFlow, h2]] at hm
      simp at hm
    · rfl
  · simp [get_list_rates_m, hf]
  · rw [hn]
    simp [rateCheckFlow, tokenTruthy]

/-- Witness for `c9_auth_gate` at a concrete failed authentication (a
simulated 401, surfaced as the caught RequestException). -/
theorem c9_auth_gate_witness :
    get_access_token (Except.error "401 Client Error") = Option.none
    ∧ rateCheckFlow [] (fun _ _ => 0) "53202" "90210" 0 "0-00004"
        (get_access_token (Except.error "401 Client Error"))
        (Except.error "transport failure") =
      [.errorMsg "Failed to get FedEx access token."] :=
  ⟨(c9_auth_gate [] (fun _ _ => 0) "53202" "90210" 0 "0-00004" Option.none
      (Except.error "401 Client Error") (Except.error "transport failure")).1
      (Or.inl ⟨"401 Client Error", rfl⟩),
   (c9_auth_gate [] (fun _ _ => 0) "53202" "90210" 0 "0-00004" Option.none
      (Except.error "401 Client Error") (Except.error "transport failure")).2.2.2.2.2
      rfl⟩

/-! ## Claim C10 -/

/-- C10: the emission guard `if amount and currency:` tests truthiness, so
a resolved amount equal to 0 yields no record; and the guard
`if not charge:` treats a top-level "totalNetFedExCharge" equal to 0, or an
empty object, as absent, triggering the nested fallback lookup. -/
theorem c10_truthiness_guard (sn : String) (del : Delivery) (detail : PyVal) :
    ((chargeFields (resolveCharge detail)).1 = PyVal.num 0 →
        extractDetailRecord sn del detail = Option.none)
    ∧ (pget detail "totalNetFedExCharge" = PyVal.num 0 →
        resolveCharge detail = nestedNetCharge detail)
    ∧ (pget detail "totalNetFedExCharge" = PyVal.dict [] →
        resolveCharge detail = nestedNetCharge detail) := by
  refine ⟨?_, ?_, ?_⟩
  · intro h
    unfold extractDetailRecord
    rw [h]
    simp [truthy]
  · intro h
    simp [resolveCharge, h, truthy]
  · intro h
    simp [resolveCharge, h, truthy]

/-- Witness for `c10_truthiness_guard` at a structured charge whose amount
is 0 with a valid currency. -/
theorem c10_truthiness_guard_witness :
    (chargeFields (resolveCharge (PyVal.dict [("totalNetFedExCharge",
        PyVal.dict [("amount", PyVal.num 0), ("currency", PyVal.str "USD")])]))).1 =
      PyVal.num 0
    ∧ extractDetailRecord "FedEx Ground" .unavailable
        (PyVal.dict [("totalNetFedExCharge",
          PyVal.dict [("amount", PyVal.num 0), ("currency", PyVal.str "USD")])]) =
      Option.none :=
  ⟨rfl, (c10_truthiness_guard "FedEx Ground" .unavailable
    (PyVal.dict [("totalNetFedExCharge",
      PyVal.dict [("amount", PyVal.num 0), ("currency", PyVal.str "USD")])])).1 rfl⟩
